import Mathlib

/-!
Shallow embedding of `src/text_to_pdf.py` (raulhou/text_to_pdf).

The program batch-converts `.txt`/`.doc`/`.docx` files to PDF through an
external word-processing engine (Word COM automation), either one PDF per
file (`batch_convert_to_pdf`) or one merged, bookmarked PDF
(`merge_to_single_pdf`).

Modelling conventions:
* Pure string helpers (`natural_sort_key`, `sanitize_bookmark_name`,
  `os.path.splitext`, `os.path.basename`) are translated into Lean
  functions over `List Char` / `String`.  Unicode-sensitive Python
  predicates (`str.isdigit`, `\d`, `\W`, `str.lower`) are modelled at
  their ASCII meaning, which is what the repository's filenames exercise.
* Effectful code is modelled as a function from an environment of oracles
  (`Env`: file-system answers and success/failure of each engine call) to
  the list of observable events (`Event`) the run performs, in order.
  `try/except/finally` control flow is translated faithfully: an engine
  call whose oracle says "fail" raises, and the trace from that point on
  is what the handlers and `finally` blocks produce.
* Python's `list.sort(key=...)` is a stable sort by the key's `<`;
  it is modelled by a stable insertion sort on the same strict order.
-/

set_option maxRecDepth 4000

namespace TextToPdf

/-! ### ASCII character helpers -/

/-- ASCII model of Python `str.lower` applied characterwise. -/
def lowerStr (s : String) : String :=
  String.mk (s.data.map Char.toLower)

/-- A character of Python's `\w` class (ASCII reading): letter, digit or
underscore.  `re.sub(r'\W', '_', ...)` replaces exactly the complement. -/
def isWordChar (c : Char) : Bool :=
  c.isAlphanum || c = '_'

/-! ### `natural_sort_key` (src/text_to_pdf.py lines 31-36)

Python: `re.split(r'(\d+)', filename)` cuts the string at every maximal
digit run, keeping the runs (capture group); the gaps between runs are
returned too, including empty gaps at either end.  Each piece `c` is then
mapped to `int(c)` when `c.isdigit()` and to `c.lower()` otherwise. -/

/-- The pieces `re.split(r'(\d+)', s)` returns, as character lists:
alternating (possibly empty) digit-free gaps and non-empty maximal digit
runs, beginning and ending with a gap. -/
def parts : List Char → List (List Char)
  | [] => [[]]
  | c :: cs =>
    if c.isDigit then
      match parts cs with
      | [] :: r :: rest => [] :: (c :: r) :: rest
      | other => [] :: [c] :: other
    else
      match parts cs with
      | g :: rest => (c :: g) :: rest
      | [] => [[c]]

/-- Value of an ASCII digit character. -/
def charVal (c : Char) : Nat := c.toNat - 48

/-- Python `int` on a (non-empty) string of decimal digits. -/
def parseNat (l : List Char) : Nat :=
  l.foldl (fun a c => a * 10 + charVal c) 0

/-- One comparison token of a natural-sort key: `int(c)` for digit runs,
`c.lower()` for the rest. -/
inductive NatTok where
  | str (s : String)
  | num (n : Nat)
  deriving DecidableEq, Repr

/-- Python `c.isdigit()`: non-empty and all digits. -/
def pyIsDigit (p : List Char) : Bool :=
  !p.isEmpty && p.all Char.isDigit

/-- `natural_sort_key(filename)`:
`[int(c) if c.isdigit() else c.lower() for c in re.split(r'(\d+)', filename)]`. -/
def natural_sort_key (filename : String) : List NatTok :=
  (parts filename.data).map fun p =>
    if pyIsDigit p then NatTok.num (parseNat p)
    else NatTok.str (String.mk (p.map Char.toLower))

/-! ### Python comparison of key lists

Python compares the key lists element by element (`==`, then `<` at the
first difference; a strict prefix is smaller).  On the keys produced
above, tokens at equal positions always have the same kind (string
positions are even, integer positions odd), so the cross-kind case of
`<` — which Python would reject with a `TypeError` — is never consulted;
it is modelled as `false`. -/

/-- `<` on individual key tokens. -/
def natTokLt : NatTok → NatTok → Bool
  | NatTok.num a, NatTok.num b => a < b
  | NatTok.str a, NatTok.str b => decide (a < b)
  | _, _ => false

/-- Python list comparison (`<`) specialised to key-token lists. -/
def pyListLt : List NatTok → List NatTok → Bool
  | _, [] => false
  | [], _ :: _ => true
  | x :: xs, y :: ys => if x == y then pyListLt xs ys else natTokLt x y

/-- Stable insertion of one filename into a list already sorted by
`natural_sort_key`, preserving original order between equal keys. -/
def insertByKey (f : String) : List String → List String
  | [] => [f]
  | g :: gs =>
    if pyListLt (natural_sort_key g) (natural_sort_key f) then
      g :: insertByKey f gs
    else
      f :: g :: gs

/-- `files.sort(key=natural_sort_key)`: the stable sort of the list under
the key order. -/
def sortByKey : List String → List String
  | [] => []
  | f :: fs => insertByKey f (sortByKey fs)

/-! ### Spec-side statement of the natural order (§4.1 of the spec)

"Two filenames compare by lexicographic comparison of their token
sequences, with integer tokens compared numerically and string tokens
compared case-insensitively."  Stated over the raw (uncased) split
pieces, with the case-insensitivity in the comparison itself. -/

/-- The split pieces of a filename as tokens, digit runs parsed, gaps kept
with their original casing. -/
def rawTokens (filename : String) : List NatTok :=
  (parts filename.data).map fun p =>
    if pyIsDigit p then NatTok.num (parseNat p) else NatTok.str (String.mk p)

/-- Case-insensitive token equality (numbers numerically). -/
def ciTokEq : NatTok → NatTok → Bool
  | NatTok.num a, NatTok.num b => a == b
  | NatTok.str a, NatTok.str b => lowerStr a == lowerStr b
  | _, _ => false

/-- Case-insensitive token order (numbers numerically). -/
def ciTokLt : NatTok → NatTok → Bool
  | NatTok.num a, NatTok.num b => a < b
  | NatTok.str a, NatTok.str b => decide (lowerStr a < lowerStr b)
  | _, _ => false

/-- Lexicographic comparison of token sequences under the spec's token
order. -/
def lexTokLt : List NatTok → List NatTok → Bool
  | _, [] => false
  | [], _ :: _ => true
  | x :: xs, y :: ys => if ciTokEq x y then lexTokLt xs ys else ciTokLt x y

/-- The spec's "natural order" on filenames. -/
def naturalSpecLt (f g : String) : Bool :=
  lexTokLt (rawTokens f) (rawTokens g)

/-! ### `os.path.splitext` (Windows `ntpath`, used at lines 44 and 89)

CPython `genericpath._splitext(p, '\\', '/', '.')`: find the last path
separator and the last dot; if the dot lies after the separator and at
least one character strictly between them is not a dot, the extension
starts at that dot; otherwise there is no extension. -/

/-- Index of the last occurrence of `c` in `l`, `-1` when absent
(Python `str.rfind`). -/
def rfindChar (l : List Char) (c : Char) : Int :=
  l.enum.foldl (fun acc p => if p.2 = c then (p.1 : Int) else acc) (-1)

/-- `os.path.splitext(s)[0]`: the filename with its extension removed. -/
def splitextStem (s : String) : String :=
  let p := s.data
  let sepIdx := max (rfindChar p '\\') (rfindChar p '/')
  let dotIdx := rfindChar p '.'
  if dotIdx > sepIdx then
    let between := (p.drop (sepIdx + 1).toNat).take (dotIdx - sepIdx - 1).toNat
    if between.any (fun c => c ≠ '.') then String.mk (p.take dotIdx.toNat) else s
  else s

/-- `os.path.basename(s)`: everything after the last path separator
(Windows: `\` or `/`). -/
def basename (s : String) : String :=
  String.mk ((s.data.reverse.takeWhile fun c => ¬ (c = '\\' ∨ c = '/')).reverse)

/-! ### Decimal formatting (`f"{index:02d}"`) -/

/-- Worker for `decDigits`; the fuel argument only bounds the recursion
depth (any fuel above the digit count of `n` gives the same answer). -/
def decDigitsAux : Nat → Nat → List Char
  | 0, _ => []
  | fuel + 1, n =>
    if n < 10 then [Nat.digitChar n]
    else decDigitsAux fuel (n / 10) ++ [Nat.digitChar (n % 10)]

/-- The decimal digits of `n`, most significant first (the digits Python's
`"%d"` formatting prints). -/
def decDigits (n : Nat) : List Char := decDigitsAux (n + 1) n

/-- `f"{n:02d}"`: the decimal digits left-padded with `'0'` to width 2. -/
def pad2 (n : Nat) : List Char :=
  if (decDigits n).length < 2 then '0' :: decDigits n else decDigits n

/-! ### `sanitize_bookmark_name` (src/text_to_pdf.py lines 38-51)

`name = os.path.splitext(filename)[0]`;
`clean_name = re.sub(r'\W', '_', name)`;
`bookmark_name = f"B{index:02d}_{clean_name}"`; return
`bookmark_name[:40]`.  String slicing is character-list `take`. -/

/-- The characters of `re.sub(r'\W', '_', splitext(filename)[0])`. -/
def cleanStemChars (filename : String) : List Char :=
  (splitextStem filename).data.map fun c => if isWordChar c then c else '_'

/-- `sanitize_bookmark_name(filename, index)`. -/
def sanitize_bookmark_name (filename : String) (index : Nat) : String :=
  String.mk ((('B' :: pad2 index) ++ '_' :: cleanStemChars filename).take 40)

/-- The spec's description of the sanitizer output (§4.2): the pattern
`B<2-digit zero-padded index>_<stem with non-word characters replaced by
underscores>`, truncated to 40 characters total. -/
def bookmarkSpecForm (filename : String) (index : Nat) : String :=
  String.mk (("B" ++ String.mk (pad2 index) ++ "_"
      ++ String.mk (cleanStemChars filename)).data.take 40)

/-- Recover the index back out of a bookmark name: the digit run after the
leading `'B'`, parsed as decimal. -/
def decodeIdx (s : String) : Nat :=
  parseNat ((s.data.drop 1).takeWhile Char.isDigit)

/-! ### The effectful core (src/text_to_pdf.py lines 55-162)

The environment fixes every answer the outside world gives the run: what
the file system reports and which external-engine calls succeed.  A call
whose oracle is `false` raises, and control transfers to the Python
handlers exactly as in the source.  `os.makedirs`, `doc.Close`,
`word_app.Quit` and the assignment `Visible = False` are modelled as
always succeeding; no claim turns on their failure. -/

structure Env where
  /-- `os.path.abspath` (depends on the process working directory). -/
  abspath : String → String
  /-- `os.path.exists`. -/
  pathExists : String → Bool
  /-- `os.listdir`. -/
  listdir : String → List String
  /-- `comtypes.client.CreateObject("Word.Application")` succeeds. -/
  createOk : Bool
  /-- `word_app.Documents.Open(path)` succeeds. -/
  openOk : String → Bool
  /-- `doc.SaveAs(path, FileFormat=wdFormatPDF)` succeeds. -/
  saveOk : String → Bool
  /-- `word_app.Documents.Add()` succeeds. -/
  addOk : Bool
  /-- `merged_doc.Bookmarks.Add(Name=name, ...)` succeeds. -/
  bookmarkOk : String → Bool
  /-- `selection.InsertFile(FileName=path)` succeeds. -/
  insertOk : String → Bool
  /-- `selection.InsertBreak(Type=wdPageBreak)` succeeds. -/
  breakOk : Bool
  /-- `merged_doc.ExportAsFixedFormat(OutputFileName=path, ...)` succeeds. -/
  exportOk : String → Bool

/-- The messages the program prints, one constructor per `print` call,
carrying the formatted-in data. -/
inductive Msg where
  /-- `Error: Folder {folder} not found.` -/
  | folderNotFound (folder : String)
  /-- `No compatible documents found.` -/
  | noDocs
  /-- `Found {n} files. Starting individual conversion...` -/
  | found (n : Nat)
  /-- `Converted: {filename}` -/
  | converted (filename : String)
  /-- `Failed to convert {filename}: {e}` -/
  | failedConvert (filename : String)
  /-- `An error occurred initializing Word: {e}` -/
  | errorInitWord
  /-- `Merging {n} files into a single PDF with bookmarks...` -/
  | merging (n : Nat)
  /-- `Warning: File {abs_path} not found. Skipping.` -/
  | warnMissing (absPath : String)
  /-- `Success! Merged PDF saved at: {path}` -/
  | successMerged (path : String)
  /-- `An error occurred during merging: {e}` -/
  | errorMerging
  deriving DecidableEq, Repr

/-- The observable events of a run, in order. -/
inductive Event where
  | printMsg (m : Msg)
  /-- `os.makedirs(output_folder)` -/
  | makedirs (p : String)
  /-- successful `CreateObject("Word.Application")` -/
  | createSession
  /-- successful `word_app.Documents.Open(p)` -/
  | openDoc (p : String)
  /-- successful `doc.SaveAs(p, FileFormat=wdFormatPDF)` -/
  | saveAs (p : String)
  /-- `doc.Close(SaveChanges=0)` / `merged_doc.Close(SaveChanges=0)` -/
  | closeNoSave
  /-- successful `word_app.Documents.Add()` -/
  | addDocument
  /-- successful `merged_doc.Bookmarks.Add(Name=n, Range=selection.Range)` -/
  | bookmarkAdd (n : String)
  /-- successful `selection.InsertFile(FileName=p)` -/
  | insertFile (p : String)
  /-- successful `selection.InsertBreak(Type=wdPageBreak)` -/
  | pageBreak
  /-- successful `merged_doc.ExportAsFixedFormat(OutputFileName=p, ...)` -/
  | exportPdf (p : String)
  /-- `word_app.Quit()` from a `finally` block -/
  | quit
  deriving DecidableEq, Repr

/-- `os.path.join` for the paths this program builds (separator choice is
irrelevant to every claim). -/
def joinP (a b : String) : String := a ++ "/" ++ b

/-- Python `str.endswith` on character lists: does `s` end with `t`? -/
def endsWithChars (s t : List Char) : Bool :=
  s.drop (s.length - t.length) == t

/-- `f.lower().endswith((".doc", ".docx", ".txt"))`: the qualifying-file
test of lines 76-77 (and 188-189). -/
def qualifies (f : String) : Bool :=
  endsWithChars (lowerStr f).data ".doc".data
    || endsWithChars (lowerStr f).data ".docx".data
    || endsWithChars (lowerStr f).data ".txt".data

/-- One iteration of the per-file loop of `batch_convert_to_pdf`
(lines 87-98): open, export, report, close, with the per-file
`try/except` catching open and export failures. -/
def convertOne (env : Env) (inF outF : String) (filename : String) :
    List Event :=
  let inputPath := joinP inF filename
  let outputPath := joinP outF (splitextStem filename ++ ".pdf")
  if env.openOk inputPath then
    if env.saveOk outputPath then
      [Event.openDoc inputPath, Event.saveAs outputPath,
       Event.printMsg (Msg.converted filename), Event.closeNoSave]
    else
      [Event.openDoc inputPath, Event.printMsg (Msg.failedConvert filename)]
  else
    [Event.printMsg (Msg.failedConvert filename)]

/-- The qualifying files of the input folder in converted order
(lines 76-79). -/
def collectedFiles (env : Env) (inF : String) : List String :=
  sortByKey ((env.listdir inF).filter qualifies)

/-- `batch_convert_to_pdf(input_folder, output_folder=None)`
(lines 55-104) as the trace of one run. -/
def batch_convert_to_pdf (env : Env) (input_folder : String)
    (output_folder : Option String) : List Event :=
  let inF := env.abspath input_folder
  let outF := match output_folder with
    | some o => env.abspath o
    | none => inF
  if env.pathExists inF = false then
    [Event.printMsg (Msg.folderNotFound inF)]
  else
    let pre := if env.pathExists outF = false then [Event.makedirs outF] else []
    if env.createOk = false then
      -- CreateObject raised; `word_app` is still None, so the outer
      -- `except` prints and the `finally` does not call Quit.
      pre ++ [Event.printMsg Msg.errorInitWord]
    else
      let files := collectedFiles env inF
      if files.isEmpty then
        pre ++ [Event.createSession, Event.printMsg Msg.noDocs, Event.quit]
      else
        pre ++ [Event.createSession, Event.printMsg (Msg.found files.length)]
          ++ (files.map (convertOne env inF outF)).flatten
          ++ [Event.quit]

/-- The per-file loop of `merge_to_single_pdf` (lines 127-145) over the
enumerated remaining paths; returns the events it performed and whether it
finished without raising (`false` = an engine call raised and the loop
was abandoned at that point). -/
def mergeLoop (env : Env) (total : Nat) :
    List (Nat × String) → List Event × Bool
  | [] => ([], true)
  | (index, filePath) :: rest =>
    let absPath := env.abspath filePath
    if env.pathExists absPath = false then
      let r := mergeLoop env total rest
      (Event.printMsg (Msg.warnMissing absPath) :: r.1, r.2)
    else
      let bName := sanitize_bookmark_name (basename filePath) index
      if env.bookmarkOk bName = false then ([], false)
      else if env.insertOk absPath = false then ([Event.bookmarkAdd bName], false)
      else if index < total - 1 then
        if env.breakOk = false then
          ([Event.bookmarkAdd bName, Event.insertFile absPath], false)
        else
          let r := mergeLoop env total rest
          (Event.bookmarkAdd bName :: Event.insertFile absPath
            :: Event.pageBreak :: r.1, r.2)
      else
        let r := mergeLoop env total rest
        (Event.bookmarkAdd bName :: Event.insertFile absPath :: r.1, r.2)

/-- `merge_to_single_pdf(file_paths, output_pdf_path)` (lines 106-162) as
the trace of one run. -/
def merge_to_single_pdf (env : Env) (file_paths : List String)
    (output_pdf_path : String) : List Event :=
  let outP := env.abspath output_pdf_path
  if env.createOk = false then
    -- CreateObject raised; `word_app` is None: print, no Quit.
    [Event.printMsg Msg.errorMerging]
  else if env.addOk = false then
    [Event.createSession, Event.printMsg Msg.errorMerging, Event.quit]
  else
    [Event.createSession, Event.addDocument,
     Event.printMsg (Msg.merging file_paths.length)]
      ++ (let r := mergeLoop env file_paths.length file_paths.enum
          if r.2 then
            r.1 ++
              (if env.exportOk outP then
                [Event.exportPdf outP, Event.closeNoSave,
                 Event.printMsg (Msg.successMerged outP)]
              else [Event.printMsg Msg.errorMerging])
          else r.1 ++ [Event.printMsg Msg.errorMerging])
      ++ [Event.quit]

/-! ### Definitions used in the statements below -/

/-- `natural_sort_key` lowers the string pieces of `rawTokens`. -/
def lowerTok : NatTok → NatTok
  | NatTok.str s => NatTok.str (lowerStr s)
  | NatTok.num n => NatTok.num n

/-- Is the event a missing-file warning? -/
def isWarnEvt : Event → Bool
  | Event.printMsg (Msg.warnMissing _) => true
  | _ => false

/-- Is the event a successful document open? -/
def isOpenEvt : Event → Bool
  | Event.openDoc _ => true
  | _ => false

/-- Is the event a successful bookmark insertion? -/
def isBookmarkEvt : Event → Bool
  | Event.bookmarkAdd _ => true
  | _ => false

/-- Is the event a close-without-saving? -/
def isCloseEvt : Event → Bool
  | Event.closeNoSave => true
  | _ => false

/-- Is the event a page-break insertion? -/
def isBreakEvt : Event → Bool
  | Event.pageBreak => true
  | _ => false

/-- Is the event a bookmark insertion or a content insertion? -/
def isContentEvt : Event → Bool
  | Event.bookmarkAdd _ => true
  | Event.insertFile _ => true
  | _ => false

/-- The events of one merge-loop iteration when every engine call
succeeds. -/
def mergeStep (env : Env) (total : Nat) (p : Nat × String) : List Event :=
  if env.pathExists (env.abspath p.2) = false then
    [Event.printMsg (Msg.warnMissing (env.abspath p.2))]
  else
    Event.bookmarkAdd (sanitize_bookmark_name (basename p.2) p.1)
      :: Event.insertFile (env.abspath p.2)
      :: (if p.1 < total - 1 then [Event.pageBreak] else [])

/-- The bookmark and content-insertion events a successful merge performs:
one pair per existing entry, in input order, under the entry's original
index. -/
def expectedContent (env : Env) (paths : List String) : List Event :=
  ((paths.enum.filter fun p => env.pathExists (env.abspath p.2)).map fun p =>
      [Event.bookmarkAdd (sanitize_bookmark_name (basename p.2) p.1),
       Event.insertFile (env.abspath p.2)]).flatten

/-- Concrete environment: every call succeeds, every path exists, the
folder listing is empty. -/
def envEmptyFolder : Env where
  abspath := id
  pathExists := fun _ => true
  listdir := fun _ => []
  createOk := true
  openOk := fun _ => true
  saveOk := fun _ => true
  addOk := true
  bookmarkOk := fun _ => true
  insertOk := fun _ => true
  breakOk := true
  exportOk := fun _ => true

/-- Concrete environment: one qualifying file whose export (`SaveAs`)
raises. -/
def envSaveFails : Env :=
  { envEmptyFolder with
      listdir := fun _ => ["a.txt"], saveOk := fun _ => false }

/-- Concrete environment: only the path `"b.txt"` exists on disk. -/
def envOneMissing : Env :=
  { envEmptyFolder with pathExists := fun s => s == "b.txt" }

/-- Concrete environment: no path exists on disk. -/
def envAllMissing : Env :=
  { envEmptyFolder with pathExists := fun _ => false }

/-! ## Supporting lemmas: decimal digits and the bookmark sanitizer -/

theorem digitChar_isDigit (d : Nat) (h : d < 10) :
    (Nat.digitChar d).isDigit = true := by
  interval_cases d <;> decide

theorem charVal_digitChar (d : Nat) (h : d < 10) :
    charVal (Nat.digitChar d) = d := by
  interval_cases d <;> decide

theorem parseNat_append_singleton (a : List Char) (c : Char) :
    parseNat (a ++ [c]) = parseNat a * 10 + charVal c := by
  simp [parseNat, List.foldl_append]

theorem decDigitsAux_parse :
    ∀ fuel n, n < fuel → parseNat (decDigitsAux fuel n) = n := by
  intro fuel
  induction fuel with
  | zero => intro n h; omega
  | succ fuel ih =>
    intro n h
    rw [decDigitsAux]
    split
    · next h10 => simp [parseNat, charVal_digitChar n h10]
    · next h10 =>
      have hdiv : n / 10 < n := Nat.div_lt_self (by omega) (by omega)
      rw [parseNat_append_singleton, ih (n / 10) (by omega),
        charVal_digitChar _ (Nat.mod_lt _ (by omega))]
      omega

theorem parseNat_decDigits (n : Nat) : parseNat (decDigits n) = n :=
  decDigitsAux_parse (n + 1) n (Nat.lt_succ_self n)

theorem decDigitsAux_digits :
    ∀ fuel n, ∀ c ∈ decDigitsAux fuel n, c.isDigit = true := by
  intro fuel
  induction fuel with
  | zero => intro n c hc; simp [decDigitsAux] at hc
  | succ fuel ih =>
    intro n c hc
    rw [decDigitsAux] at hc
    split at hc
    · next h10 =>
      simp at hc
      subst hc
      exact digitChar_isDigit n h10
    · next =>
      rcases List.mem_append.1 hc with hm | hm
      · exact ih _ _ hm
      · simp at hm
        subst hm
        exact digitChar_isDigit _ (Nat.mod_lt _ (by omega))

theorem decDigitsAux_length :
    ∀ fuel k n, 1 ≤ k → n < 10 ^ k → (decDigitsAux fuel n).length ≤ k := by
  intro fuel
  induction fuel with
  | zero => intro k n _ _; simp [decDigitsAux]
  | succ fuel ih =>
    intro k n hk hn
    rw [decDigitsAux]
    split
    · next => simp; omega
    · next h10 =>
      match k, hk with
      | 1, _ => omega
      | (k' + 2), _ =>
        have hdiv : n / 10 < 10 ^ (k' + 1) := by
          rw [Nat.div_lt_iff_lt_mul (by omega : 0 < 10)]
          calc n < 10 ^ (k' + 2) := hn
            _ = 10 ^ (k' + 1) * 10 := by ring
        have := ih (k' + 1) (n / 10) (by omega) hdiv
        simp [List.length_append]
        omega

theorem parseNat_cons_zero (l : List Char) : parseNat ('0' :: l) = parseNat l :=
  rfl

theorem pad2_parse (n : Nat) : parseNat (pad2 n) = n := by
  unfold pad2
  split
  · rw [parseNat_cons_zero, parseNat_decDigits]
  · exact parseNat_decDigits n

theorem pad2_digits (n : Nat) : ∀ c ∈ pad2 n, c.isDigit = true := by
  intro c hc
  unfold pad2 at hc
  split at hc
  · rcases List.mem_cons.1 hc with h | h
    · subst h; decide
    · exact decDigitsAux_digits _ _ c h
  · exact decDigitsAux_digits _ _ c hc

theorem pad2_length_le (n : Nat) (h : n < 10 ^ 38) : (pad2 n).length ≤ 38 := by
  unfold pad2
  split
  · next hl => simp only [List.length_cons]; omega
  · exact decDigitsAux_length _ 38 n (by omega) h

theorem takeWhile_append_all {α : Type} (p : α → Bool) :
    ∀ a b : List α, (∀ x ∈ a, p x = true) →
      (a ++ b).takeWhile p = a ++ b.takeWhile p := by
  intro a
  induction a with
  | nil => simp
  | cons x xs ih =>
    intro b h
    simp only [List.cons_append, List.takeWhile_cons, h x (by simp)]
    simp [ih b fun y hy => h y (by simp [hy])]

theorem takeWhile_digit_take_underscore (m : Nat) (cl : List Char) :
    ((('_' : Char) :: cl).take m).takeWhile Char.isDigit = [] := by
  cases m <;> rfl

theorem decodeIdx_sanitize (f : String) (i : Nat) (h : i < 10 ^ 38) :
    decodeIdx (sanitize_bookmark_name f i) = i := by
  have hlen : (pad2 i).length ≤ 38 := pad2_length_le i h
  show parseNat
      (((('B' :: pad2 i ++ '_' :: cleanStemChars f).take 40).drop 1).takeWhile
        Char.isDigit) = i
  have h1 : (('B' :: pad2 i ++ '_' :: cleanStemChars f).take 40).drop 1
      = (pad2 i ++ '_' :: cleanStemChars f).take 39 := rfl
  rw [h1, List.take_append_eq_append_take,
    List.take_of_length_le (by omega : (pad2 i).length ≤ 39),
    takeWhile_append_all Char.isDigit _ _ (pad2_digits i),
    takeWhile_digit_take_underscore]
  simp [pad2_parse]

/-! ## Supporting lemmas: the natural sort key -/

theorem natural_sort_key_eq_map (f : String) :
    natural_sort_key f = (rawTokens f).map lowerTok := by
  simp only [natural_sort_key, rawTokens, List.map_map]
  refine List.map_congr_left fun p _ => ?_
  by_cases h : pyIsDigit p = true <;> simp [h, lowerTok, lowerStr, Function.comp]

theorem beq_lowerTok (x y : NatTok) : (lowerTok x == lowerTok y) = ciTokEq x y := by
  cases x <;> cases y <;>
    simp only [lowerTok, ciTokEq] <;>
    first
      | rfl
      | (rename_i a b; by_cases h : lowerStr a = lowerStr b <;> simp [h])
      | (rename_i a b; by_cases h : a = b <;> simp [h])

theorem lt_lowerTok (x y : NatTok) : natTokLt (lowerTok x) (lowerTok y) = ciTokLt x y := by
  cases x <;> cases y <;> rfl

theorem pyListLt_map_lower :
    ∀ A B : List NatTok, pyListLt (A.map lowerTok) (B.map lowerTok) = lexTokLt A B := by
  intro A
  induction A with
  | nil => intro B; cases B <;> rfl
  | cons x xs ih =>
    intro B
    cases B with
    | nil => rfl
    | cons y ys =>
      simp only [List.map_cons, pyListLt, lexTokLt, beq_lowerTok, lt_lowerTok, ih]

/-! ## Claims C4-C7: the pure helpers -/

/-- C4 (amended): for indices below `10 ^ 38` — i.e. whenever the index
prefix and its separator survive the 40-character truncation, which covers
every realisable merge plan — bookmark names at distinct positions are
pairwise distinct, for any filenames, including filenames whose stems
sanitize to the same string. -/
theorem c4_bookmark_names_distinct (f g : String) (i j : Nat)
    (hi : i < 10 ^ 38) (hj : j < 10 ^ 38) (hij : i ≠ j) :
    sanitize_bookmark_name f i ≠ sanitize_bookmark_name g j := by
  intro heq
  apply hij
  have hdec := congrArg decodeIdx heq
  rwa [decodeIdx_sanitize f i hi, decodeIdx_sanitize g j hj] at hdec

/-- C4 witness: the distinctness theorem applied at positions 0 and 1. -/
theorem c4_witness :
    sanitize_bookmark_name "a.txt" 0 ≠ sanitize_bookmark_name "b.docx" 1 :=
  c4_bookmark_names_distinct "a.txt" "b.docx" 0 1 (by norm_num) (by norm_num)
    (by decide)

/-- C4 counterexample: as stated — over all distinct zero-based positions
— the claim fails: at positions `10 ^ 39` and `10 ^ 39 + 1` the
40-character truncation cuts inside the index digits and the two bookmark
names coincide. -/
theorem c4_counterexample :
    (10 ^ 39 : Nat) ≠ 10 ^ 39 + 1
    ∧ sanitize_bookmark_name "a.txt" (10 ^ 39)
        = sanitize_bookmark_name "a.txt" (10 ^ 39 + 1) := by
  exact ⟨by omega, by decide⟩

/-- C5: the sanitizer returns `B<2-digit zero-padded index>_<stem with
every non-word character replaced by underscore>` truncated to at most 40
characters; the result starts with the letter `'B'` and contains only
word characters (letters, digits, underscore); in particular
`sanitize_bookmark_name "My Notes v2.docx" 3 = "B03_My_Notes_v2"`. -/
theorem c5_sanitizer_form :
    sanitize_bookmark_name "My Notes v2.docx" 3 = "B03_My_Notes_v2"
    ∧ (∀ f i, sanitize_bookmark_name f i = bookmarkSpecForm f i)
    ∧ (∀ f i, (sanitize_bookmark_name f i).length ≤ 40)
    ∧ (∀ f i, (sanitize_bookmark_name f i).data.head? = some 'B')
    ∧ (∀ f i, (sanitize_bookmark_name f i).data.all isWordChar = true) := by
  refine ⟨by decide, fun f i => ?_, fun f i => ?_, fun f i => rfl, fun f i => ?_⟩
  · simp [sanitize_bookmark_name, bookmarkSpecForm, String.data_append]
  · simp only [sanitize_bookmark_name, String.length, List.length_take]
    omega
  · rw [List.all_eq_true]
    intro c hc
    have hc' := List.take_subset _ _ hc
    simp only [List.mem_cons, List.mem_append, cleanStemChars, List.mem_map]
      at hc'
    rcases hc' with (rfl | hpad) | rfl | ⟨a, _, rfl⟩
    · decide
    · have hd := pad2_digits i c hpad
      simp [isWordChar, Char.isAlphanum, hd]
    · decide
    · by_cases hw : isWordChar a = true
      · rw [if_pos hw]; exact hw
      · rw [if_neg hw]; decide

/-- C6: sorting by the natural key compares token sequences
lexicographically, digit runs as integers and the other runs
case-insensitively (the comparison Python applies to the produced keys
coincides with the spec's order on the raw token sequences); in
particular the example list sorts into numeric order. -/
theorem c6_natural_sort :
    sortByKey ["unit2.txt", "unit10.txt", "unit1.txt"]
        = ["unit1.txt", "unit2.txt", "unit10.txt"]
    ∧ ∀ f g : String,
        pyListLt (natural_sort_key f) (natural_sort_key g) = naturalSpecLt f g := by
  refine ⟨by decide, fun f g => ?_⟩
  rw [naturalSpecLt, natural_sort_key_eq_map, natural_sort_key_eq_map,
    pyListLt_map_lower]

/-- C7 counterexample: on the empty string the key is not the empty token
sequence (Python's `re.split` returns `['']`, which the comprehension
maps to one empty-string token). -/
theorem c7_counterexample : natural_sort_key "" ≠ ([] : List NatTok) := by
  decide

/-- C7 (amended): the key of the empty string is the one-element token
sequence holding the empty (string) token. -/
theorem c7_empty_key : natural_sort_key "" = [NatTok.str ""] := by
  decide

/-! ## Supporting lemmas: trace shapes -/

theorem getLast?_append_quit (l : List Event) :
    (l ++ [Event.quit]).getLast? = some Event.quit :=
  List.getLast?_concat l

theorem createSession_not_mem_pre (c : Prop) [Decidable c] (p : String) :
    Event.createSession ∉ (if c then [Event.makedirs p] else []) := by
  split <;> simp

/-! ## Claims C1-C2: session lifecycle -/

/-- C2: in every run of the batch converter and of the merge composer in
which an engine session was successfully created, the trace ends with the
session being quit — on every exit path, including exceptions raised
during the per-file loop or during export. -/
theorem c2_session_always_quit :
    (∀ (env : Env) (folder : String) (out : Option String),
        Event.createSession ∈ batch_convert_to_pdf env folder out →
        (batch_convert_to_pdf env folder out).getLast? = some Event.quit)
    ∧ (∀ (env : Env) (paths : List String) (outp : String),
        Event.createSession ∈ merge_to_single_pdf env paths outp →
        (merge_to_single_pdf env paths outp).getLast? = some Event.quit) := by
  constructor
  · intro env folder out h
    by_cases hp : env.pathExists (env.abspath folder) = false
    · simp [batch_convert_to_pdf, hp] at h
    · by_cases hc : env.createOk = false
      · simp only [batch_convert_to_pdf, if_neg hp, if_pos hc] at h
        rcases List.mem_append.1 h with hm | hm
        · exact absurd hm (createSession_not_mem_pre _ _)
        · simp at hm
      · simp only [batch_convert_to_pdf, if_neg hp, if_neg hc]
        split
        · rw [show [Event.createSession, Event.printMsg Msg.noDocs, Event.quit]
              = [Event.createSession, Event.printMsg Msg.noDocs]
                  ++ [Event.quit] from rfl,
            ← List.append_assoc]
          exact getLast?_append_quit _
        · repeat rw [List.getLast?_append_of_ne_nil _ (by simp)]
          rfl
  · intro env paths outp h
    by_cases hc : env.createOk = false
    · simp [merge_to_single_pdf, hc] at h
    · simp only [merge_to_single_pdf, if_neg hc]
      split
      · rfl
      · repeat rw [List.getLast?_append_of_ne_nil _ (by simp)]
        rfl

/-- C2 witness: the theorem applied to a run on an (all-successful)
environment with an empty folder, and to a one-file merge. -/
theorem c2_witness :
    (batch_convert_to_pdf envEmptyFolder "docs" none).getLast?
        = some Event.quit
    ∧ (merge_to_single_pdf envEmptyFolder ["a.txt"] "out.pdf").getLast?
        = some Event.quit :=
  ⟨c2_session_always_quit.1 envEmptyFolder "docs" none (by decide),
   c2_session_always_quit.2 envEmptyFolder ["a.txt"] "out.pdf" (by decide)⟩

/-- C1 counterexample: on an existing folder with zero qualifying files
the batch converter does report "no documents", but only after the
engine session has been created — the claim's "without ever starting an
external engine session" fails. -/
theorem c1_counterexample :
    Event.printMsg Msg.noDocs ∈ batch_convert_to_pdf envEmptyFolder "docs" none
    ∧ Event.createSession ∈ batch_convert_to_pdf envEmptyFolder "docs" none := by
  decide

/-- C1 (amended): on an existing folder with zero qualifying files (and an
engine that starts successfully) the batch converter reports that no
compatible documents were found and returns without converting anything —
but the engine session is created before the folder is scanned, and is
quit before returning. -/
theorem c1_empty_folder_reports_and_quits (env : Env) (folder : String)
    (hp : env.pathExists (env.abspath folder) = true)
    (hc : env.createOk = true)
    (hf : (env.listdir (env.abspath folder)).filter qualifies = []) :
    batch_convert_to_pdf env folder none =
      [Event.createSession, Event.printMsg Msg.noDocs, Event.quit] := by
  simp [batch_convert_to_pdf, collectedFiles, hp, hc, hf, sortByKey]

/-- C1 witness: the amended statement at the concrete empty-folder
environment. -/
theorem c1_witness :
    batch_convert_to_pdf envEmptyFolder "docs" none =
      [Event.createSession, Event.printMsg Msg.noDocs, Event.quit] :=
  c1_empty_folder_reports_and_quits envEmptyFolder "docs" rfl rfl rfl

/-! ## Claim C3: documents opened by the batch converter -/

theorem convert_flatten_close_count (env : Env) (inF outF : String) :
    ∀ fs : List String,
      ((fs.map (convertOne env inF outF)).flatten).countP isCloseEvt
        = (fs.filter fun f =>
            env.openOk (joinP inF f)
              && env.saveOk (joinP outF (splitextStem f ++ ".pdf"))).length := by
  intro fs
  induction fs with
  | nil => rfl
  | cons f fs ih =>
    simp only [List.map_cons, List.flatten_cons, List.countP_append, ih,
      List.filter_cons]
    by_cases ho : env.openOk (joinP inF f) = true
    · by_cases hs : env.saveOk (joinP outF (splitextStem f ++ ".pdf")) = true
      · simp [convertOne, ho, hs, isCloseEvt]
        omega
      · simp [convertOne, ho, hs, isCloseEvt]
    · simp [convertOne, ho, isCloseEvt]

theorem convert_flatten_open_count (env : Env) (inF outF : String) :
    ∀ fs : List String,
      ((fs.map (convertOne env inF outF)).flatten).countP isOpenEvt
        = (fs.filter fun f => env.openOk (joinP inF f)).length := by
  intro fs
  induction fs with
  | nil => rfl
  | cons f fs ih =>
    simp only [List.map_cons, List.flatten_cons, List.countP_append, ih,
      List.filter_cons]
    by_cases ho : env.openOk (joinP inF f) = true
    · by_cases hs : env.saveOk (joinP outF (splitextStem f ++ ".pdf")) = true
      · simp [convertOne, ho, hs, isOpenEvt]
        omega
      · simp [convertOne, ho, hs, isOpenEvt]
        omega
    · simp [convertOne, ho, isOpenEvt]

/-- C3 counterexample: a run in which one file opens but its export
(`SaveAs`) raises — the document is never closed before the session
quits, refuting "every successfully opened document is closed ...
including runs in which the export step of some file raises". -/
theorem c3_counterexample :
    Event.openDoc "f/a.txt" ∈ batch_convert_to_pdf envSaveFails "f" none
    ∧ Event.closeNoSave ∉ batch_convert_to_pdf envSaveFails "f" none := by
  decide

/-- C3 (amended): in every batch run, the documents closed without saving
are exactly the files whose open and export both succeed, while a
document is opened for every file whose open succeeds; a file whose
export raises therefore leaves its document open (only its error is
logged). -/
theorem c3_close_counts (env : Env) (folder : String)
    (hp : env.pathExists (env.abspath folder) = true)
    (hc : env.createOk = true) :
    (batch_convert_to_pdf env folder none).countP isCloseEvt
      = ((collectedFiles env (env.abspath folder)).filter fun f =>
          env.openOk (joinP (env.abspath folder) f)
            && env.saveOk
                (joinP (env.abspath folder) (splitextStem f ++ ".pdf"))).length
    ∧ (batch_convert_to_pdf env folder none).countP isOpenEvt
      = ((collectedFiles env (env.abspath folder)).filter fun f =>
          env.openOk (joinP (env.abspath folder) f)).length := by
  by_cases hf : (collectedFiles env (env.abspath folder)).isEmpty = true
  · have h0 : collectedFiles env (env.abspath folder) = [] :=
      List.isEmpty_iff.1 hf
    constructor <;> simp [batch_convert_to_pdf, hp, hc, hf, h0, isCloseEvt,
      isOpenEvt]
  · constructor
    · simp only [batch_convert_to_pdf, hp, hc, if_neg hf, Bool.true_eq_false,
        if_false, List.countP_append, List.nil_append]
      rw [convert_flatten_close_count]
      simp [isCloseEvt]
    · simp only [batch_convert_to_pdf, hp, hc, if_neg hf, Bool.true_eq_false,
        if_false, List.countP_append, List.nil_append]
      rw [convert_flatten_open_count]
      simp [isOpenEvt]

/-- C3 witness: the amended count statement at the concrete environment
whose single file opens but fails to export. -/
theorem c3_witness :
    (batch_convert_to_pdf envSaveFails "f" none).countP isCloseEvt
      = ((collectedFiles envSaveFails (envSaveFails.abspath "f")).filter fun f =>
          envSaveFails.openOk (joinP (envSaveFails.abspath "f") f)
            && envSaveFails.saveOk
                (joinP (envSaveFails.abspath "f")
                  (splitextStem f ++ ".pdf"))).length :=
  (c3_close_counts envSaveFails "f" rfl rfl).1

/-! ## Supporting lemmas: the merge loop -/

theorem mergeLoop_allOk (env : Env) (total : Nat)
    (hb : ∀ s, env.bookmarkOk s = true) (hi : ∀ s, env.insertOk s = true)
    (hbr : env.breakOk = true) :
    ∀ l : List (Nat × String),
      mergeLoop env total l = ((l.map (mergeStep env total)).flatten, true) := by
  intro l
  induction l with
  | nil => rfl
  | cons p rest ih =>
    obtain ⟨index, filePath⟩ := p
    by_cases hx : env.pathExists (env.abspath filePath) = false
    · simp [mergeLoop, mergeStep, hx, ih]
    · by_cases hlast : index < total - 1
      · simp [mergeLoop, mergeStep, hx, hb, hi, hbr, hlast, ih]
      · simp [mergeLoop, mergeStep, hx, hb, hi, hbr, hlast, ih]

theorem mergeLoop_allMissing (env : Env) (total : Nat) :
    ∀ l : List (Nat × String),
      (∀ p ∈ l, env.pathExists (env.abspath p.2) = false) →
      mergeLoop env total l
        = (l.map fun p => Event.printMsg (Msg.warnMissing (env.abspath p.2)),
           true) := by
  intro l
  induction l with
  | nil => intro _; rfl
  | cons p rest ih =>
    intro h
    obtain ⟨index, filePath⟩ := p
    have hp := h (index, filePath) (by simp)
    simp [mergeLoop, hp, ih fun q hq => h q (by simp [hq])]

theorem mergeStep_countP_warn (env : Env) (total : Nat) :
    ∀ l : List (Nat × String),
      ((l.map (mergeStep env total)).flatten).countP isWarnEvt
        = (l.filter fun p => !env.pathExists (env.abspath p.2)).length := by
  intro l
  induction l with
  | nil => rfl
  | cons p rest ih =>
    simp only [List.map_cons, List.flatten_cons, List.countP_append, ih,
      List.filter_cons]
    by_cases hx : env.pathExists (env.abspath p.2) = false
    · simp [mergeStep, hx, isWarnEvt]
      omega
    · by_cases hlast : p.1 < total - 1 <;>
        simp [mergeStep, hx, hlast, isWarnEvt]

theorem mergeStep_filter_content (env : Env) (total : Nat) :
    ∀ l : List (Nat × String),
      ((l.map (mergeStep env total)).flatten).filter isContentEvt
        = ((l.filter fun p => env.pathExists (env.abspath p.2)).map fun p =>
            [Event.bookmarkAdd (sanitize_bookmark_name (basename p.2) p.1),
             Event.insertFile (env.abspath p.2)]).flatten := by
  intro l
  induction l with
  | nil => rfl
  | cons p rest ih =>
    simp only [List.map_cons, List.flatten_cons, List.filter_append, ih,
      List.filter_cons]
    by_cases hx : env.pathExists (env.abspath p.2) = false
    · simp [mergeStep, hx, isContentEvt]
    · by_cases hlast : p.1 < total - 1 <;>
        simp [mergeStep, hx, hlast, isContentEvt]

theorem enumFrom_filter_snd_length {α : Type} (q : α → Bool) :
    ∀ (n : Nat) (l : List α),
      ((List.enumFrom n l).filter fun p => q p.2).length
        = (l.filter q).length := by
  intro n l
  induction l generalizing n with
  | nil => rfl
  | cons a l ih =>
    simp only [List.enumFrom_cons, List.filter_cons]
    by_cases hq : q a = true
    · simp [hq, ih]
    · simp [hq, ih]

theorem enumFrom_forall_snd {α : Type} (q : α → Prop) :
    ∀ (n : Nat) (l : List α), (∀ x ∈ l, q x) →
      ∀ p ∈ List.enumFrom n l, q p.2 := by
  intro n l
  induction l generalizing n with
  | nil => intro _ p hp; simp at hp
  | cons a l ih =>
    intro h p hp
    rw [List.enumFrom_cons] at hp
    rcases List.mem_cons.1 hp with rfl | hp'
    · exact h a (by simp)
    · exact ih (n + 1) (fun x hx => h x (by simp [hx])) p hp'

/-! ## Claims C8-C10: the merge composer -/

/-- C8: when some entries of the input list do not exist on disk (and the
engine calls succeed), each missing entry is skipped with exactly one
warning (the warning count equals the number of missing entries), the
merge is not aborted — the destination is exported and success is
reported — and the bookmark/content events are exactly those of the
remaining existing entries, in order, under their original indices. -/
theorem c8_skip_missing_continue (env : Env) (paths : List String)
    (outp : String)
    (hc : env.createOk = true) (ha : env.addOk = true)
    (hb : ∀ s, env.bookmarkOk s = true) (hi : ∀ s, env.insertOk s = true)
    (hbr : env.breakOk = true) (hex : ∀ s, env.exportOk s = true)
    (_hmiss : ∃ p ∈ paths, env.pathExists (env.abspath p) = false) :
    (merge_to_single_pdf env paths outp).countP isWarnEvt
        = (paths.filter fun p => !env.pathExists (env.abspath p)).length
    ∧ Event.exportPdf (env.abspath outp) ∈ merge_to_single_pdf env paths outp
    ∧ Event.printMsg (Msg.successMerged (env.abspath outp))
        ∈ merge_to_single_pdf env paths outp
    ∧ (merge_to_single_pdf env paths outp).filter isContentEvt
        = expectedContent env paths := by
  have hloop := mergeLoop_allOk env paths.length hb hi hbr paths.enum
  have htrace : merge_to_single_pdf env paths outp
      = [Event.createSession, Event.addDocument,
         Event.printMsg (Msg.merging paths.length)]
          ++ ((paths.enum.map (mergeStep env paths.length)).flatten
              ++ [Event.exportPdf (env.abspath outp), Event.closeNoSave,
                  Event.printMsg (Msg.successMerged (env.abspath outp))])
          ++ [Event.quit] := by
    simp [merge_to_single_pdf, hc, ha, hex, hloop]
  refine ⟨?_, ?_, ?_, ?_⟩
  · rw [htrace]
    simp only [List.countP_append, mergeStep_countP_warn]
    rw [show (List.enum paths) = List.enumFrom 0 paths from rfl,
      enumFrom_filter_snd_length (fun x => !env.pathExists (env.abspath x))
        0 paths]
    simp [isWarnEvt]
  · rw [htrace]; simp
  · rw [htrace]; simp
  · rw [htrace]
    simp only [List.filter_append, mergeStep_filter_content]
    simp [isContentEvt, expectedContent]

/-- C8 witness: the theorem at a two-entry list whose first entry is
missing. -/
theorem c8_witness :
    Event.exportPdf "out.pdf"
      ∈ merge_to_single_pdf envOneMissing ["a.txt", "b.txt"] "out.pdf" :=
  (c8_skip_missing_continue envOneMissing ["a.txt", "b.txt"] "out.pdf"
    rfl rfl (fun _ => rfl) (fun _ => rfl) rfl (fun _ => rfl)
    ⟨"a.txt", by simp, rfl⟩).2.1

/-- C9: a merge plan with exactly one existing file produces zero page
breaks and exactly one bookmark, and the container is exported. -/
theorem c9_single_file_merge (env : Env) (p outp : String)
    (hc : env.createOk = true) (ha : env.addOk = true)
    (hb : ∀ s, env.bookmarkOk s = true) (hi : ∀ s, env.insertOk s = true)
    (hex : ∀ s, env.exportOk s = true)
    (hp : env.pathExists (env.abspath p) = true) :
    (merge_to_single_pdf env [p] outp).countP isBreakEvt = 0
    ∧ (merge_to_single_pdf env [p] outp).countP isBookmarkEvt = 1
    ∧ Event.exportPdf (env.abspath outp) ∈ merge_to_single_pdf env [p] outp := by
  have henum : ([p] : List String).enum = [(0, p)] := rfl
  have htrace : merge_to_single_pdf env [p] outp
      = [Event.createSession, Event.addDocument, Event.printMsg (Msg.merging 1),
         Event.bookmarkAdd (sanitize_bookmark_name (basename p) 0),
         Event.insertFile (env.abspath p),
         Event.exportPdf (env.abspath outp), Event.closeNoSave,
         Event.printMsg (Msg.successMerged (env.abspath outp)), Event.quit] := by
    simp [merge_to_single_pdf, mergeLoop, henum, hc, ha, hb, hi, hex, hp]
  rw [htrace]
  refine ⟨?_, ?_, ?_⟩ <;> simp [isBreakEvt, isBookmarkEvt]

/-- C9 witness: the theorem at a single existing file. -/
theorem c9_witness :
    (merge_to_single_pdf envEmptyFolder ["a.txt"] "out.pdf").countP
        isBookmarkEvt = 1 :=
  (c9_single_file_merge envEmptyFolder "a.txt" "out.pdf" rfl rfl
    (fun _ => rfl) (fun _ => rfl) (fun _ => rfl) rfl).2.1

/-- C10: on a non-empty list none of whose entries exists, the merge
composer still creates the container document, inserts zero bookmarks and
zero page breaks, exports the (empty) container to the destination, and
reports success rather than an error. -/
theorem c10_all_missing_merge (env : Env) (paths : List String)
    (outp : String)
    (_hne : paths ≠ [])
    (hmiss : ∀ p ∈ paths, env.pathExists (env.abspath p) = false)
    (hc : env.createOk = true) (ha : env.addOk = true)
    (hex : ∀ s, env.exportOk s = true) :
    Event.addDocument ∈ merge_to_single_pdf env paths outp
    ∧ (merge_to_single_pdf env paths outp).countP isBookmarkEvt = 0
    ∧ (merge_to_single_pdf env paths outp).countP isBreakEvt = 0
    ∧ Event.exportPdf (env.abspath outp) ∈ merge_to_single_pdf env paths outp
    ∧ Event.printMsg (Msg.successMerged (env.abspath outp))
        ∈ merge_to_single_pdf env paths outp
    ∧ Event.printMsg Msg.errorMerging ∉ merge_to_single_pdf env paths outp := by
  have hloop := mergeLoop_allMissing env paths.length paths.enum
    (enumFrom_forall_snd (fun x => env.pathExists (env.abspath x) = false)
      0 paths hmiss)
  have htrace : merge_to_single_pdf env paths outp
      = [Event.createSession, Event.addDocument,
         Event.printMsg (Msg.merging paths.length)]
          ++ ((paths.enum.map fun q =>
                Event.printMsg (Msg.warnMissing (env.abspath q.2)))
              ++ [Event.exportPdf (env.abspath outp), Event.closeNoSave,
                  Event.printMsg (Msg.successMerged (env.abspath outp))])
          ++ [Event.quit] := by
    simp [merge_to_single_pdf, hc, ha, hex, hloop]
  rw [htrace]
  refine ⟨by simp, ?_, ?_, by simp, by simp, ?_⟩
  · simp only [List.countP_append, List.countP_map]
    simp [isBookmarkEvt, Function.comp, List.countP_eq_zero]
  · simp only [List.countP_append, List.countP_map]
    simp [isBreakEvt, Function.comp, List.countP_eq_zero]
  · simp

/-- C10 witness: the theorem at a one-entry list whose entry is missing. -/
theorem c10_witness :
    Event.exportPdf "out.pdf"
      ∈ merge_to_single_pdf envAllMissing ["a.txt"] "out.pdf" :=
  (c10_all_missing_merge envAllMissing ["a.txt"] "out.pdf" (by simp)
    (fun _ _ => rfl) rfl rfl (fun _ => rfl)).2.2.2.1

end TextToPdf
